import Mathlib

/-!
# Verification of the minimal Cap'n Proto codec and tunnel protocol layers

A shallow embedding of the C sources under `tunnel-app/main/` —
`capnp_minimal.c`, `data_stream.c`, `control_stream.c`, `http_proxy.c`,
`quic_tunnel.c` — together with theorems settling the behavioural claims
about them.

Modelling conventions:
* Byte buffers (`uint8_t *`) are total functions `Nat → Nat`; every read
  takes the stored value modulo 256, mirroring `uint8_t` truncation.
* `size_t` values are unbounded `Nat`; where the C source explicitly
  casts to a fixed-width type (`uint32_t`, `int32_t`, conversion of a
  signed offset into `size_t`), the model applies the corresponding
  `% 2^32` / sign-extension / `% 2^64` step (64-bit `size_t`).
* C functions returning `-1` on failure and filling out-parameters are
  modelled as functions returning `Option`/pairs.
* Heap allocation (`malloc`/`realloc`) and external transport calls are
  modelled as succeeding; failures of those are environment effects.
-/

namespace Cloudflared

/-! ## Byte buffers and little-endian helpers (capnp_minimal.c) -/

/-- A byte of a `uint8_t` buffer: stored values are reduced mod 256. -/
def byteAt (buf : Nat → Nat) (i : Nat) : Nat := buf i % 256

/-- `read_le16` from `capnp_minimal.c`: `p[0] | p[1] << 8`. -/
def read_le16 (buf : Nat → Nat) (p : Nat) : Nat :=
  byteAt buf p + byteAt buf (p + 1) * 2 ^ 8

/-- `read_le32` from `capnp_minimal.c`. -/
def read_le32 (buf : Nat → Nat) (p : Nat) : Nat :=
  byteAt buf p + byteAt buf (p + 1) * 2 ^ 8 +
  byteAt buf (p + 2) * 2 ^ 16 + byteAt buf (p + 3) * 2 ^ 24

/-- Store one byte at index `p` (a `uint8_t` write truncates mod 256). -/
def writeByte (buf : Nat → Nat) (p v : Nat) : Nat → Nat :=
  fun i => if i = p then v % 256 else buf i

/-- `write_le32` from `capnp_minimal.c`: stores the four little-endian
bytes of the `uint32_t` argument. -/
def write_le32 (buf : Nat → Nat) (p v : Nat) : Nat → Nat := fun i =>
  if i = p then v % 256
  else if i = p + 1 then v / 2 ^ 8 % 256
  else if i = p + 2 then v / 2 ^ 16 % 256
  else if i = p + 3 then v / 2 ^ 24 % 256
  else buf i

/-- `align8` from `capnp_minimal.c`: `(n + 7) & ~7`, i.e. round up to the
next multiple of 8. -/
def align8 (n : Nat) : Nat := (n + 7) / 8 * 8

/-- The value of a C `(int)` cast of an unsigned quantity (and of the
reinterpretation of a 32-bit wire word as `int32_t`): truncate to 32
bits and sign-extend. -/
def sext32 (n : Nat) : Int :=
  if n % 2 ^ 32 < 2 ^ 31 then ((n % 2 ^ 32 : Nat) : Int)
  else ((n % 2 ^ 32 : Nat) : Int) - 2 ^ 32

/-! ## Builder (capnp_minimal.c) -/

/-- `capnp_builder_t`: working buffer, capacity, write cursor. -/
structure capnp_builder_t where
  buf : Nat → Nat
  cap : Nat
  pos : Nat

/-- `capnp_builder_init`: cursor 0, `memset(buf, 0, cap)`. -/
def capnp_builder_init (buf : Nat → Nat) (cap : Nat) : capnp_builder_t :=
  { buf := fun i => if i < cap then 0 else buf i, cap := cap, pos := 0 }

/-- `capnp_alloc`: align the cursor to 8, reserve `words*8` bytes, zero
the alignment gap, and return `(int)aligned` — the `int` cast wraps for
`aligned ≥ 2^31`, after the builder has already been mutated; on
capacity overflow return `-1` leaving the builder untouched. -/
def capnp_alloc (b : capnp_builder_t) (words : Nat) :
    Int × capnp_builder_t :=
  let aligned := align8 b.pos
  let need := aligned + words * 8
  if need > b.cap then (-1, b)
  else
    (sext32 aligned,
      { buf := fun i => if b.pos ≤ i ∧ i < aligned then 0 else b.buf i
        cap := b.cap
        pos := need })

/-! ## Pointer words (capnp_minimal.c) -/

/-- Conversion of a signed 64-bit quantity to `size_t` (64-bit model). -/
def sizeT (i : Int) : Nat := (i % (2 ^ 64 : Int)).toNat

/-- The `uint32_t` bit pattern of
`(int32_t)((target - ptr_offset - 8) / 8)` as computed by the writers:
`size_t` subtraction (mod `2^64`), `size_t` division by 8, then the
truncating cast to 32 bits. -/
def offWordsWire (target ptr_offset : Nat) : Nat :=
  ((((target : Int) - ptr_offset - 8) % (2 ^ 64 : Int)).toNat / 8) % 2 ^ 32

/-- `capnp_write_struct_ptr`: store a struct pointer at `ptr_offset`.
`lo = (uint32_t)(off_words << 2) | 0`, `hi = data_words | ptr_count << 16`
(the `uint16_t` parameters are reduced mod `2^16`). -/
def capnp_write_struct_ptr (buf : Nat → Nat) (ptr_offset struct_offset : Nat)
    (data_words ptr_count : Nat) : Nat → Nat :=
  let lo := offWordsWire struct_offset ptr_offset * 4 % 2 ^ 32
  let hi := data_words % 2 ^ 16 ||| ptr_count % 2 ^ 16 * 2 ^ 16
  write_le32 (write_le32 buf ptr_offset lo) (ptr_offset + 4) hi

/-- `capnp_write_list_ptr`: store a list pointer at `ptr_offset`.
`lo = (uint32_t)(off_words << 2) | 1`,
`hi = elem_size | (count << 3)` with `elem_size : uint8_t`,
`count : uint32_t`. -/
def capnp_write_list_ptr (buf : Nat → Nat) (ptr_offset list_offset : Nat)
    (elem_size count : Nat) : Nat → Nat :=
  let lo := offWordsWire list_offset ptr_offset * 4 % 2 ^ 32 ||| 1
  let hi := elem_size % 2 ^ 8 ||| count % 2 ^ 32 * 8 % 2 ^ 32
  write_le32 (write_le32 buf ptr_offset lo) (ptr_offset + 4) hi

/-! ## Reader (capnp_minimal.c) -/

/-- `capnp_reader_t`: the exposed single segment and its byte length. -/
structure capnp_reader_t where
  seg : Nat → Nat
  seg_len : Nat

/-- `capnp_read_message`: reject inputs shorter than 8 bytes, any
segment count other than 0, and a segment overflowing the input;
otherwise expose the segment slice `data + 8` of `seg0_words * 8`
bytes. -/
def capnp_read_message (data : Nat → Nat) (len : Nat) :
    Option capnp_reader_t :=
  if len < 8 then none
  else if read_le32 data 0 ≠ 0 then none
  else
    let seg0_bytes := read_le32 data 4 * 8
    if 8 + seg0_bytes > len then none
    else some ⟨fun i => data (8 + i), seg0_bytes⟩

/-- `capnp_read_struct_ptr`: fail (`-1`) if the 8 pointer bytes are not
inside the segment, the pointer is null (both halves zero), or the low
two bits are nonzero; otherwise return
`(struct_offset, data_words, ptr_count)` where
`struct_offset = ptr_offset + 8 + off_words * 8` in `size_t`
arithmetic. (The source performs no bounds check on the target.) -/
def capnp_read_struct_ptr (r : capnp_reader_t) (ptr_offset : Nat) :
    Option (Nat × Nat × Nat) :=
  if ptr_offset + 8 > r.seg_len then none
  else
    let lo := read_le32 r.seg ptr_offset
    let hi := read_le32 r.seg (ptr_offset + 4)
    if lo = 0 ∧ hi = 0 then none
    else if lo % 4 ≠ 0 then none
    else
      some (sizeT ((ptr_offset : Int) + 8 + (sext32 lo).fdiv 4 * 8),
            hi % 2 ^ 16, hi / 2 ^ 16)

/-- `capnp_read_text` returns `(returned pointer, written *out_len)`:
`(none, some 0)` for a null pointer (NULL returned, length set to 0),
`(none, none)` on failure (NULL returned, `*out_len` untouched), and
`(some data_offset, some (count - 1))` on success (text counts include
the NUL terminator; a zero count reports length 0). The bounds check
`data_offset + count > seg_len` is `size_t` arithmetic, so the sum
wraps mod `2^64`. -/
def capnp_read_text (r : capnp_reader_t) (ptr_offset : Nat) :
    Option Nat × Option Nat :=
  if ptr_offset + 8 > r.seg_len then (none, none)
  else
    let lo := read_le32 r.seg ptr_offset
    let hi := read_le32 r.seg (ptr_offset + 4)
    if lo = 0 ∧ hi = 0 then (none, some 0)
    else if lo % 4 ≠ 1 then (none, none)
    else
      let elem_sz := hi % 8
      let count := hi / 8
      if elem_sz ≠ 2 then (none, none)
      else
        let data_offset :=
          sizeT ((ptr_offset : Int) + 8 + (sext32 lo).fdiv 4 * 8)
        if (data_offset + count) % 2 ^ 64 > r.seg_len then (none, none)
        else (some data_offset, some (if count > 0 then count - 1 else 0))

/-- `capnp_read_data`: same as `capnp_read_text` but the reported length
is the full element count (no NUL trim). -/
def capnp_read_data (r : capnp_reader_t) (ptr_offset : Nat) :
    Option Nat × Option Nat :=
  if ptr_offset + 8 > r.seg_len then (none, none)
  else
    let lo := read_le32 r.seg ptr_offset
    let hi := read_le32 r.seg (ptr_offset + 4)
    if lo = 0 ∧ hi = 0 then (none, some 0)
    else if lo % 4 ≠ 1 then (none, none)
    else
      let elem_sz := hi % 8
      let count := hi / 8
      if elem_sz ≠ 2 then (none, none)
      else
        let data_offset :=
          sizeT ((ptr_offset : Int) + 8 + (sext32 lo).fdiv 4 * 8)
        if (data_offset + count) % 2 ^ 64 > r.seg_len then (none, none)
        else (some data_offset, some count)

/-- `capnp_read_uint16`: bounds-checked scalar read, zero when out of
range. -/
def capnp_read_uint16 (r : capnp_reader_t)
    (struct_data_offset byte_offset : Nat) : Nat :=
  let off := struct_data_offset + byte_offset
  if off + 2 > r.seg_len then 0 else read_le16 r.seg off

/-- `capnp_read_uint8`: bounds-checked scalar read, zero when out of
range. -/
def capnp_read_uint8 (r : capnp_reader_t)
    (struct_data_offset byte_offset : Nat) : Nat :=
  let off := struct_data_offset + byte_offset
  if off + 1 > r.seg_len then 0 else byteAt r.seg off

/-- `capnp_read_bool`: one bit, `false` when out of range. -/
def capnp_read_bool (r : capnp_reader_t)
    (struct_data_offset byte_offset bit : Nat) : Bool :=
  let off := struct_data_offset + byte_offset
  if off + 1 > r.seg_len then false
  else byteAt r.seg off / 2 ^ bit % 2 = 1

/-- `capnp_wire_message_size`: number of bytes of the first complete
single-segment message, or 0 if incomplete/malformed. -/
def capnp_wire_message_size (data : Nat → Nat) (len : Nat) : Nat :=
  if len < 8 then 0
  else if read_le32 data 0 ≠ 0 then 0
  else
    let total := 8 + read_le32 data 4 * 8
    if total > len then 0 else total

/-- The `len` bytes of a segment starting at `off` (a returned slice). -/
def segSlice (seg : Nat → Nat) (off len : Nat) : List Nat :=
  (List.range len).map fun i => byteAt seg (off + i)

/-- A byte buffer given by a list (out-of-range reads return 0). -/
def bytesToBuf (l : List Nat) : Nat → Nat := fun i => l.getD i 0

/-! ## Text writer and finalize (capnp_minimal.c) -/

/-- `memcpy(buf + off, l, l.length)` for a byte list source. -/
def memcpyList (buf : Nat → Nat) (off : Nat) (l : List Nat) : Nat → Nat :=
  fun i =>
    if off ≤ i ∧ i < off + l.length then l.getD (i - off) 0 % 256 else buf i

/-- `capnp_write_text`: a NULL/empty string stores a null pointer (8
zero bytes) without allocating; otherwise allocate
`(strlen + 1 + 7) / 8` words, copy the bytes plus a NUL terminator, and
store a byte list pointer (`elem_size = 2`) with `count = strlen + 1`.
`text` models the NUL-terminated C string as the list of its content
bytes (nonzero, so `strlen = text.length`). The `int` result of
`capnp_alloc` is checked with `data_off < 0`: a wrapped (negative)
offset makes the write fail with `-1` after the builder was already
mutated by the allocation. -/
def capnp_write_text (b : capnp_builder_t) (ptr_offset : Nat)
    (text : List Nat) : Int × capnp_builder_t :=
  if text = [] then
    (0, { b with buf := fun i =>
      if ptr_offset ≤ i ∧ i < ptr_offset + 8 then 0 else b.buf i })
  else
    let slen := text.length
    let byte_count := slen + 1
    let words := (byte_count + 7) / 8
    match capnp_alloc b words with
    | (data_off, b1) =>
      if data_off < 0 then (-1, b1)
      else
        let off := data_off.toNat
        let buf1 := memcpyList b1.buf off text
        let buf2 := writeByte buf1 (off + slen) 0
        (0, { b1 with
          buf := capnp_write_list_ptr buf2 ptr_offset off 2 byte_count })

/-- `capnp_finalize`: emit the 8-byte framing header (`0`,
`(uint32_t)seg_words`) followed by the working region rounded up to a
word boundary; return the total length and the output buffer, or
`(0, out)` on overflow. -/
def capnp_finalize (b : capnp_builder_t) (out : Nat → Nat) (out_cap : Nat) :
    Nat × (Nat → Nat) :=
  let seg_words := align8 b.pos / 8
  let total := 8 + seg_words * 8
  if total > out_cap then (0, out)
  else
    let o1 : Nat → Nat := fun i => if i < total then 0 else out i
    let o2 := write_le32 o1 0 0
    let o3 := write_le32 o2 4 (seg_words % 2 ^ 32)
    (total, fun i => if 8 ≤ i ∧ i < 8 + b.pos then b.buf i % 256 else o3 i)

/-! ## Strings, decimal and hex rendering (snprintf models) -/

/-- The byte list of a Lean string literal (ASCII contents). -/
def str (s : String) : List Nat := s.data.map Char.toNat

/-- Decimal digits (ASCII) of a natural number, fuel-driven. -/
def natDecimalAux : Nat → Nat → List Nat
  | 0, _ => []
  | fuel + 1, n =>
    if n < 10 then [48 + n]
    else natDecimalAux fuel (n / 10) ++ [48 + n % 10]

/-- `%u` rendering of a natural number. -/
def natDecimal (n : Nat) : List Nat := natDecimalAux (n + 1) n

/-- `%d` rendering of an `int` (ASCII `-` is 45). -/
def intDecimal (i : Int) : List Nat :=
  if i < 0 then 45 :: natDecimal i.natAbs else natDecimal i.toNat

/-- One lower-case hex digit (`%02x` alphabet). -/
def hexDigitChar (n : Nat) : Nat := if n < 10 then 48 + n else 87 + n

/-- `%02x` of one byte. -/
def hexByte (b : Nat) : List Nat := [hexDigitChar (b / 16), hexDigitChar (b % 16)]

/-- Hex dump used for unexpected-length UUIDs: pairs are written while
`i*2 + 1 < 63`, i.e. for the first 31 bytes. -/
def hexDump (l : List Nat) : List Nat := (l.take 31).flatMap hexByte

/-- The canonical hyphenated UUID rendering of 16 bytes (4-2-2-2-6
groups separated by `-` = 45). -/
def uuidHyphenated (l : List Nat) : List Nat :=
  (l.take 4).flatMap hexByte ++ [45] ++
  ((l.drop 4).take 2).flatMap hexByte ++ [45] ++
  ((l.drop 6).take 2).flatMap hexByte ++ [45] ++
  ((l.drop 8).take 2).flatMap hexByte ++ [45] ++
  ((l.drop 10).take 6).flatMap hexByte

/-- Reinterpret a 64-bit pattern as `int64_t`. -/
def sext64 (n : Nat) : Int :=
  if n % 2 ^ 64 < 2 ^ 63 then ((n % 2 ^ 64 : Nat) : Int)
  else ((n % 2 ^ 64 : Nat) : Int) - 2 ^ 64

/-- Truncating cast of a signed value to `uint32_t`. -/
def sizeT32 (i : Int) : Nat := (i % (2 ^ 32 : Int)).toNat

/-! ## Tunnel data types (tunnel_types.h)

C strings held in fixed `char[N]` fields are modelled as byte lists of
length at most `N - 1` (the content up to the NUL terminator). -/

/-- `cf_metadata_t`: `key : char[128]`, `val : char[512]`. -/
structure cf_metadata_t where
  key : List Nat
  val : List Nat
deriving DecidableEq

/-- `CF_MAX_METADATA`. -/
def CF_MAX_METADATA : Nat := 32

/-- `cf_connect_request_t`; `metadata` models the first
`metadata_count` entries of the fixed array. -/
structure cf_connect_request_t where
  dest : List Nat
  type : Nat
  metadata : List cf_metadata_t
deriving DecidableEq

/-- A zeroed `cf_connect_request_t` (`memset 0`). -/
def cf_connect_request_zero : cf_connect_request_t := ⟨[], 0, []⟩

/-- `cf_connect_response_t`. -/
structure cf_connect_response_t where
  error : List Nat
  metadata : List cf_metadata_t
deriving DecidableEq

/-- `cf_registration_result_t`. -/
structure cf_registration_result_t where
  success : Bool
  uuid : List Nat
  location : List Nat
  tunnel_is_remote : Bool
  error : List Nat
  retry_after_ns : Int
  should_retry : Bool
deriving DecidableEq

/-- A zeroed `cf_registration_result_t` (`memset 0`). -/
def cf_registration_result_zero : cf_registration_result_t :=
  ⟨false, [], [], false, [], 0, false⟩

/-- `cf_http_response_t` (`body_len` is `body.length`; `headers` models
the first `header_count` entries). -/
structure cf_http_response_t where
  status_code : Int
  body : List Nat
  headers : List cf_metadata_t
deriving DecidableEq

/-! ## Decoding helpers shared by the high-level decoders -/

/-- The common C pattern `size_t len = 0; p = capnp_read_text(r, off,
&len)`: the effective length is 0 unless the call wrote one. -/
def readTextEff (r : capnp_reader_t) (p : Nat) : Option Nat × Nat :=
  let t := capnp_read_text r p
  (t.1, t.2.getD 0)

/-- The common C pattern `if (p && len > 0) { clen = min(len, cap);
memcpy(dst, p, clen); }` applied to a zeroed destination field. -/
def copyBounded (r : capnp_reader_t) (p : Option Nat) (len cap : Nat) :
    List Nat :=
  match p with
  | none => []
  | some d => if 0 < len then segSlice r.seg d (min len cap) else []

/-! ## ConnectRequest decoding (capnp_minimal.c) -/

/-- The metadata element loop of `capnp_decode_connect_request`: at most
`fuel = min(elem_count, CF_MAX_METADATA)` iterations from index `i`,
stopping early when an element's pointer section does not fit in the
segment. -/
def decodeMetaElems (r : capnp_reader_t) (elem_base stride elem_dw : Nat) :
    Nat → Nat → List cf_metadata_t
  | _, 0 => []
  | i, fuel + 1 =>
    let e_ptr_section := elem_base + i * stride + elem_dw * 8
    if e_ptr_section + 16 > r.seg_len then []
    else
      let k := readTextEff r e_ptr_section
      let v := readTextEff r (e_ptr_section + 8)
      ⟨copyBounded r k.1 k.2 127, copyBounded r v.1 v.2 511⟩ ::
        decodeMetaElems r elem_base stride elem_dw (i + 1) fuel

/-- `capnp_decode_connect_request`: parse the message, read the root
struct pointer, the `type` enum (`data[0..2]`, if present), `dest`
(pointer 0) and the metadata composite list (pointer 1). -/
def capnp_decode_connect_request (data : Nat → Nat) (len : Nat) :
    Int × cf_connect_request_t :=
  match capnp_read_message data len with
  | none => (-1, cf_connect_request_zero)
  | some reader =>
    match capnp_read_struct_ptr reader 0 with
    | none => (-1, cf_connect_request_zero)
    | some (root_off, root_dw, root_pc) =>
      let ty := if 1 ≤ root_dw then capnp_read_uint16 reader root_off 0 else 0
      let ptr_section := root_off + root_dw * 8
      let dest :=
        if 1 ≤ root_pc then
          let d := readTextEff reader ptr_section
          copyBounded reader d.1 d.2 511
        else []
      let req1 : cf_connect_request_t := ⟨dest, ty, []⟩
      if 2 ≤ root_pc then
        let meta_ptr_off := ptr_section + 8
        if meta_ptr_off + 8 > reader.seg_len then (0, req1)
        else
          let lo := read_le32 reader.seg meta_ptr_off
          let hi := read_le32 reader.seg (meta_ptr_off + 4)
          if lo = 0 ∧ hi = 0 then (0, req1)
          else if lo % 4 ≠ 1 then (-1, req1)
          else
            let elem_sz := hi % 8
            let list_data_off :=
              sizeT ((meta_ptr_off : Int) + 8 + (sext32 lo).fdiv 4 * 8)
            if elem_sz = 7 then
              if list_data_off + 8 > reader.seg_len then (-1, req1)
              else
                let tag_lo := read_le32 reader.seg list_data_off
                let tag_hi := read_le32 reader.seg (list_data_off + 4)
                let elem_count := sizeT32 ((sext32 tag_lo).fdiv 4)
                let elem_dw := tag_hi % 2 ^ 16
                let elem_pc := tag_hi / 2 ^ 16
                let stride := (elem_dw + elem_pc) * 8
                let md := decodeMetaElems reader (list_data_off + 8) stride
                  elem_dw 0 (min elem_count CF_MAX_METADATA)
                (0, { req1 with metadata := md })
            else (0, req1)
      else (0, req1)

/-! ## Data stream (data_stream.c, tunnel_types.h) -/

/-- `CF_DATA_STREAM_SIGNATURE`: `0A 36 CD 12 A1 3E`. -/
def CF_DATA_STREAM_SIGNATURE : List Nat := [10, 54, 205, 18, 161, 62]

/-- `data_stream_parse_request`: require 8 preamble bytes, the 6-byte
signature and the version bytes `'0' '1'` (48, 49); on any mismatch
return `-1` leaving the caller's request record untouched; otherwise
decode the Cap'n Proto payload after the preamble. -/
def data_stream_parse_request (data : Nat → Nat) (len : Nat)
    (req : cf_connect_request_t) : Int × cf_connect_request_t :=
  if len < 8 then (-1, req)
  else if ¬(∀ j, j < 6 → byteAt data j = CF_DATA_STREAM_SIGNATURE.getD j 0)
    then (-1, req)
  else if byteAt data 6 ≠ 48 ∨ byteAt data 7 ≠ 49 then (-1, req)
  else capnp_decode_connect_request (fun i => data (8 + i)) (len - 8)

/-- `snprintf(key, 128, "HttpHeader:%s", name)`: the concatenation
truncated to 127 bytes. -/
def httpHeaderKeyOf (name : List Nat) : List Nat :=
  (str ("HttpHeader:") ++ name).take 127

/-- `data_stream_build_http_metadata`: entry 0 is
`HttpStatus = "%d" status`; each following entry (up to the
`CF_MAX_METADATA` cap, warning and truncating beyond it) is
`HttpHeader:<name> = value`; the error string is empty. The C return
value is always 0 (the initial overflow check cannot fire). -/
def data_stream_build_http_metadata (status_code : Int)
    (headers : List cf_metadata_t) : Int × cf_connect_response_t :=
  let entry0 : cf_metadata_t :=
    ⟨(str ("HttpStatus")).take 127, (intDecimal status_code).take 511⟩
  let rest := (headers.take (CF_MAX_METADATA - 1)).map fun h =>
    (⟨httpHeaderKeyOf h.key, h.val.take 511⟩ : cf_metadata_t)
  (0, ⟨[], entry0 :: rest⟩)

/-! ## Control stream response decoding (control_stream.c) -/

/-- `control_stream_decode_response`: walk
Message → Return → (exception | canceled | results → Payload → results
wrapper → ConnectionResponse → (error | connectionDetails)), filling a
zeroed `cf_registration_result_t`. Logging is omitted; `answerId` is
read only for logging and does not affect the result. -/
def control_stream_decode_response (data : Nat → Nat) (len : Nat) :
    Int × cf_registration_result_t :=
  match capnp_read_message data len with
  | none =>
    (-1, { cf_registration_result_zero with
            error := str ("invalid capnp message") })
  | some r =>
    match capnp_read_struct_ptr r 0 with
    | none =>
      (-1, { cf_registration_result_zero with
              error := str ("invalid root pointer") })
    | some (root_off, root_dw, _root_pc) =>
      let msg_which := capnp_read_uint16 r root_off 0
      if msg_which ≠ 3 then
        (-1, { cf_registration_result_zero with
                error := str ("unexpected RPC message type ") ++
                  natDecimal msg_which })
      else
        match capnp_read_struct_ptr r (root_off + root_dw * 8) with
        | none =>
          (-1, { cf_registration_result_zero with
                  error := str ("invalid Return pointer") })
        | some (ret_off, ret_dw, _ret_pc) =>
          let ret_which := if 1 ≤ ret_dw then capnp_read_uint16 r ret_off 6 else 0
          let ret_ptrs := ret_off + ret_dw * 8
          if ret_which = 1 then
            let res1 :=
              match capnp_read_struct_ptr r ret_ptrs with
              | some (exc_off, exc_dw, exc_pc) =>
                if 1 ≤ exc_pc then
                  let t := readTextEff r (exc_off + exc_dw * 8)
                  { cf_registration_result_zero with
                      error := copyBounded r t.1 t.2 255 }
                else cf_registration_result_zero
              | none => cf_registration_result_zero
            (0, { res1 with should_retry := true })
          else if ret_which = 2 then
            (0, { cf_registration_result_zero with
                   error := str ("registration canceled") })
          else if ret_which ≠ 0 then
            (-1, { cf_registration_result_zero with
                    error := str ("unknown Return type ") ++
                      natDecimal ret_which })
          else
            match capnp_read_struct_ptr r ret_ptrs with
            | none =>
              (-1, { cf_registration_result_zero with
                      error := str ("invalid Payload") })
            | some (payload_off, payload_dw, _payload_pc) =>
              match capnp_read_struct_ptr r (payload_off + payload_dw * 8) with
              | none =>
                (-1, { cf_registration_result_zero with
                        error := str ("invalid Results wrapper") })
              | some (results_off, results_dw, results_pc) =>
                if results_pc < 1 then
                  (-1, { cf_registration_result_zero with
                          error := str ("invalid ConnectionResponse") })
                else
                  match capnp_read_struct_ptr r (results_off + results_dw * 8) with
                  | none =>
                    (-1, { cf_registration_result_zero with
                            error := str ("invalid ConnectionResponse") })
                  | some (connresp_off, connresp_dw, connresp_pc) =>
                    let cr_which := capnp_read_uint16 r connresp_off 0
                    let cr_ptrs := connresp_off + connresp_dw * 8
                    if cr_which = 0 then
                      match (if 1 ≤ connresp_pc
                              then capnp_read_struct_ptr r cr_ptrs
                              else none) with
                      | some (err_off, err_dw, err_pc) =>
                        let retry_ns : Int :=
                          if 1 ≤ err_dw then
                            sext64 (read_le32 r.seg err_off +
                              read_le32 r.seg (err_off + 4) * 2 ^ 32)
                          else 0
                        let sr := if 2 ≤ err_dw
                          then capnp_read_bool r err_off 8 0 else false
                        let etext :=
                          if 1 ≤ err_pc then
                            let t := readTextEff r (err_off + err_dw * 8)
                            copyBounded r t.1 t.2 255
                          else []
                        (0, { cf_registration_result_zero with
                               error := etext,
                               retry_after_ns := retry_ns,
                               should_retry := sr })
                      | none =>
                        (0, { cf_registration_result_zero with
                               error := str
                                 ("registration error (could not parse details)") })
                    else if cr_which = 1 then
                      match capnp_read_struct_ptr r cr_ptrs with
                      | none =>
                        (-1, { cf_registration_result_zero with
                                error := str ("invalid ConnectionDetails") })
                      | some (details_off, details_dw, details_pc) =>
                        let remote := if 1 ≤ details_dw
                          then capnp_read_bool r details_off 0 0 else false
                        let details_ptrs := details_off + details_dw * 8
                        let uu :=
                          if 1 ≤ details_pc then
                            let d := capnp_read_data r details_ptrs
                            let dlen := d.2.getD 0
                            match d.1 with
                            | some doff =>
                              if 16 ≤ dlen then
                                uuidHyphenated (segSlice r.seg doff 16)
                              else if 0 < dlen then
                                hexDump (segSlice r.seg doff dlen)
                              else []
                            | none => []
                          else []
                        let loc :=
                          if 2 ≤ details_pc then
                            let t := readTextEff r (details_ptrs + 8)
                            copyBounded r t.1 t.2 31
                          else []
                        (0, { cf_registration_result_zero with
                               success := true,
                               uuid := uu,
                               location := loc,
                               tunnel_is_remote := remote })
                    else
                      (-1, { cf_registration_result_zero with
                              error := str ("unknown ConnectionResponse type ")
                                ++ natDecimal cr_which })

/-! ## Origin proxy (http_proxy.c) -/

/-- `set_bad_gateway`: overwrite the response with status 502, the sole
header `Content-Type: text/plain`, and body `502 Bad Gateway: <reason>`
(the `malloc` for the body is modelled as succeeding). -/
def set_bad_gateway (resp : cf_http_response_t) (reason : List Nat) :
    cf_http_response_t :=
  { resp with
    status_code := 502
    headers := [⟨(str ("Content-Type")).take 127, (str ("text/plain")).take 511⟩]
    body := str ("502 Bad Gateway: ") ++ reason }

/-- Outcome of `read_http_response`: failure may leave partially-written
fields behind (`st`), which `set_bad_gateway` then overwrites. -/
inductive origin_read_result where
  | failed (st : cf_http_response_t)
  | ok (resp : cf_http_response_t)
deriving DecidableEq

/-- The environment of one `http_proxy_forward` call: the module
configuration flag and the outcomes of the three external I/O steps
(`connect_to_origin`, `send_http_request`, `read_http_response`). -/
structure origin_env_t where
  initialised : Bool
  connect_ok : Bool
  send_ok : Bool
  read_result : origin_read_result
deriving DecidableEq

/-- `http_proxy_forward`: fail with `-1` (response untouched) when the
proxy is not initialised; otherwise zero the response and run
connect → send → read, synthesizing a 502 via `set_bad_gateway` at the
first failing step. The request-path and forwarded-header assembly
between the `memset` and the connect does not touch the response and is
omitted. -/
def http_proxy_forward (env : origin_env_t) (resp_in : cf_http_response_t) :
    Int × cf_http_response_t :=
  if env.initialised = false then (-1, resp_in)
  else
    let resp0 : cf_http_response_t := ⟨0, [], []⟩
    if env.connect_ok = false then
      (0, set_bad_gateway resp0 (str ("connection to origin failed")))
    else if env.send_ok = false then
      (0, set_bad_gateway resp0 (str ("failed to send request to origin")))
    else
      match env.read_result with
      | .failed st =>
        (0, set_bad_gateway st (str ("failed to read response from origin")))
      | .ok resp => (0, resp)

/-! ## Stream multiplexer send path (quic_tunnel.c) -/

/-- The send-side fields of `stream_ctx_t`. -/
structure stream_ctx_t where
  stream_id : Nat
  is_control : Bool
  send_buf : List Nat
  send_offset : Nat
  send_fin : Bool
deriving DecidableEq

/-- `quic_tunnel_send` on an existing stream record, modelling the
successful execution (the `realloc` and the external
`picoquic_mark_active_stream` succeed): non-empty data is appended to
the send queue unconditionally, and `fin` latches the pending-FIN flag;
the return value is 0. -/
def quic_tunnel_send (sc : stream_ctx_t) (data : List Nat) (fin : Bool) :
    Int × stream_ctx_t :=
  let sc1 := if 0 < data.length then
      { sc with send_buf := sc.send_buf ++ data } else sc
  let sc2 := if fin then { sc1 with send_fin := true } else sc1
  (0, sc2)

/-! ## Concrete inputs for the counterexamples -/

/-- A string of `2^29 - 1` bytes `a`: the extreme length admitted by the
round-trip claim's bound `|s| < 2^29`. -/
def textOverflowStr : List Nat := List.replicate (2 ^ 29 - 1) 97

/-- A builder with one allocated pointer word and capacity for the
`2^29`-byte text block. -/
def textOverflowBuilder : capnp_builder_t := ⟨fun _ => 0, 2 ^ 29 + 16, 8⟩

/-- A builder whose segment word count `2^32` overflows the 32-bit
header field of `capnp_finalize` (64-bit `size_t` build). -/
def finalizeOverflowBuilder : capnp_builder_t := ⟨fun _ => 0, 2 ^ 35, 2 ^ 35⟩

/-- A synthesized single-segment RPC message: a Message envelope with
union discriminant 3 (return) whose Return has discriminant 1
(exception) carrying the reason text `"unauthorized"`. 8-byte framing
header, then 8 words: root pointer → Message (dw=1, pc=1) →
Return (dw=1, pc=1, `which` at data byte 6) → Exception (dw=0, pc=1) →
byte-list text with count 13 (NUL included). -/
def regExcMsg : List Nat :=
  [0, 0, 0, 0, 8, 0, 0, 0] ++
  [0, 0, 0, 0, 1, 0, 1, 0] ++
  [3, 0, 0, 0, 0, 0, 0, 0] ++
  [0, 0, 0, 0, 1, 0, 1, 0] ++
  [0, 0, 0, 0, 0, 0, 1, 0] ++
  [0, 0, 0, 0, 0, 0, 1, 0] ++
  [1, 0, 0, 0, 106, 0, 0, 0] ++
  [117, 110, 97, 117, 116, 104, 111, 114, 105, 122, 101, 100, 0, 0, 0, 0]

/-- `read_le32` only looks at the four bytes starting at `p`. -/
theorem read_le32_congr (b1 b2 : Nat → Nat) (p : Nat)
    (h : ∀ i, p ≤ i → i < p + 4 → b1 i % 256 = b2 i % 256) :
    read_le32 b1 p = read_le32 b2 p := by
  unfold read_le32 byteAt
  rw [h p (Nat.le_refl _) (by omega), h (p + 1) (by omega) (by omega),
    h (p + 2) (by omega) (by omega), h (p + 3) (by omega) (by omega)]

theorem sext32_small (n : Nat) (h : n < 2 ^ 31) : sext32 n = (n : Int) := by
  unfold sext32
  rw [Nat.mod_eq_of_lt (by omega), if_pos h]

/-! ## Claim C9: `capnp_alloc` failure atomicity and return value -/

/-- C1 counterexample: a segment of 8 bytes holding the struct pointer
`lo = 20, hi = 1 << 16` (offset 5 words, 0 data words, 1 pointer word).
The computed target byte offset is `0 + 8 + 5*8 = 48`, outside the
8-byte segment, yet `capnp_read_struct_ptr` succeeds and returns the
out-of-segment target instead of failing with `OutOfBounds`. -/
theorem capnp_read_struct_ptr_oob_counterexample :
    capnp_read_struct_ptr ⟨bytesToBuf [20, 0, 0, 0, 0, 0, 1, 0], 8⟩ 0 =
      some (48, 0, 1) ∧ ¬(48 ≤ (8 : Nat)) := by
  constructor
  · decide
  · decide

/-- C1 (amended): `capnp_read_struct_ptr` performs no bounds check on
the computed target: for every in-segment, non-null struct pointer it
succeeds and returns `(ptr_offset + 8 + off_words*8, data_words,
ptr_count)` even when that target lies outside the segment — but it
never reads outside the input: its result depends only on the eight
pointer bytes at `ptr_offset` (out-of-segment targets are only caught by
the later bounds-checked field readers). -/
theorem capnp_read_struct_ptr_oob_target (r : capnp_reader_t) (p : Nat)
    (h8 : p + 8 ≤ r.seg_len)
    (hnn : ¬(read_le32 r.seg p = 0 ∧ read_le32 r.seg (p + 4) = 0))
    (hk : read_le32 r.seg p % 4 = 0)
    (hoob : r.seg_len <
      sizeT ((p : Int) + 8 + (sext32 (read_le32 r.seg p)).fdiv 4 * 8)) :
    capnp_read_struct_ptr r p =
      some (sizeT ((p : Int) + 8 + (sext32 (read_le32 r.seg p)).fdiv 4 * 8),
            read_le32 r.seg (p + 4) % 2 ^ 16,
            read_le32 r.seg (p + 4) / 2 ^ 16) ∧
    r.seg_len <
      sizeT ((p : Int) + 8 + (sext32 (read_le32 r.seg p)).fdiv 4 * 8) ∧
    (∀ seg2 : Nat → Nat,
      (∀ i, p ≤ i → i < p + 8 → seg2 i % 256 = r.seg i % 256) →
      capnp_read_struct_ptr ⟨seg2, r.seg_len⟩ p = capnp_read_struct_ptr r p) := by
  refine ⟨?_, hoob, ?_⟩
  · unfold capnp_read_struct_ptr
    rw [if_neg (by omega), if_neg hnn, if_neg (by simp [hk])]
  · intro seg2 hf
    have hlo : read_le32 seg2 p = read_le32 r.seg p :=
      read_le32_congr _ _ _ fun i h1 h2 => hf i h1 (by omega)
    have hhi : read_le32 seg2 (p + 4) = read_le32 r.seg (p + 4) :=
      read_le32_congr _ _ _ fun i h1 h2 => hf i (by omega) (by omega)
    unfold capnp_read_struct_ptr
    simp only [hlo, hhi]

/-- Witness for C1's amended theorem at a concrete input: pointer bytes
`lo = 12, hi = 2 | 3 << 16` in an 8-byte segment give the out-of-segment
target 32 with `(data_words, ptr_count) = (2, 3)`. -/
theorem capnp_read_struct_ptr_oob_target_witness :
    capnp_read_struct_ptr ⟨bytesToBuf [12, 0, 0, 0, 2, 0, 3, 0], 8⟩ 0 =
      some (32, 2, 3) ∧ (8 : Nat) < 32 := by
  have h := capnp_read_struct_ptr_oob_target
    ⟨bytesToBuf [12, 0, 0, 0, 2, 0, 3, 0], 8⟩ 0
    (by decide) (by decide) (by decide) (by decide)
  exact ⟨h.1.trans (by decide), by norm_num⟩

/-! ## Claim C10: null pointers decode as absent/empty, bad pointers fail -/

/-- C10 counterexample: the out-of-bounds range check is `size_t`
arithmetic, so it can wrap: at offset 0 of a 96-byte segment, the list
pointer `lo = 0xFFFFFFF9` (off_words = -2), `hi = 802` (byte list,
count 100) gives `data_offset = 2^64 - 8`, far outside the segment, but
the C sum `data_offset + count` wraps to 92 ≤ 96 and both readers
return a non-NULL out-of-segment slice instead of failing. -/
theorem capnp_read_text_data_oob_wrap_counterexample :
    capnp_read_text ⟨bytesToBuf [249, 255, 255, 255, 34, 3, 0, 0], 96⟩ 0 =
      (some (2 ^ 64 - 8), some 99) ∧
    capnp_read_data ⟨bytesToBuf [249, 255, 255, 255, 34, 3, 0, 0], 96⟩ 0 =
      (some (2 ^ 64 - 8), some 100) ∧
    (96 : Nat) < 2 ^ 64 - 8 := by
  refine ⟨by decide, by decide, by decide⟩

/-- C10 (amended): for `capnp_read_text` and `capnp_read_data`, an
in-bounds all-zero pointer is treated as absent: NULL is returned and
the reported length is set to 0. A non-null pointer of the wrong kind
(low bits ≠ 1) returns NULL without writing any length (failure), and so
does a byte-list pointer whose byte range escapes the segment — provided
the `size_t` sum `data_offset + count` does not wrap mod `2^64`; a
crafted negative offset can wrap the sum below `seg_len`, in which case
the readers return an out-of-segment slice instead of failing. -/
theorem capnp_read_text_data_null_vs_fail (r : capnp_reader_t) (p : Nat) :
    (p + 8 ≤ r.seg_len →
      (∀ i, p ≤ i → i < p + 8 → byteAt r.seg i = 0) →
      capnp_read_text r p = (none, some 0) ∧
      capnp_read_data r p = (none, some 0)) ∧
    (¬(read_le32 r.seg p = 0 ∧ read_le32 r.seg (p + 4) = 0) →
      read_le32 r.seg p % 4 ≠ 1 →
      capnp_read_text r p = (none, none) ∧
      capnp_read_data r p = (none, none)) ∧
    (read_le32 r.seg p % 4 = 1 →
      read_le32 r.seg (p + 4) % 8 = 2 →
      r.seg_len < sizeT ((p : Int) + 8 + (sext32 (read_le32 r.seg p)).fdiv 4 * 8)
        + read_le32 r.seg (p + 4) / 8 →
      sizeT ((p : Int) + 8 + (sext32 (read_le32 r.seg p)).fdiv 4 * 8)
        + read_le32 r.seg (p + 4) / 8 < 2 ^ 64 →
      capnp_read_text r p = (none, none) ∧
      capnp_read_data r p = (none, none)) := by
  refine ⟨?_, ?_, ?_⟩
  · intro hlen hz
    have hlo : read_le32 r.seg p = 0 := by
      unfold read_le32
      rw [hz p (Nat.le_refl _) (by omega), hz (p + 1) (by omega) (by omega),
        hz (p + 2) (by omega) (by omega), hz (p + 3) (by omega) (by omega)]
      norm_num
    have hhi : read_le32 r.seg (p + 4) = 0 := by
      unfold read_le32
      rw [hz (p + 4) (by omega) (by omega),
        show p + 4 + 1 = p + 5 by omega, hz (p + 5) (by omega) (by omega),
        show p + 4 + 2 = p + 6 by omega, hz (p + 6) (by omega) (by omega),
        show p + 4 + 3 = p + 7 by omega, hz (p + 7) (by omega) (by omega)]
      norm_num
    constructor
    · unfold capnp_read_text
      rw [if_neg (by omega), if_pos ⟨hlo, hhi⟩]
    · unfold capnp_read_data
      rw [if_neg (by omega), if_pos ⟨hlo, hhi⟩]
  · intro hnn hk
    by_cases hlen : p + 8 > r.seg_len
    · exact ⟨by unfold capnp_read_text; rw [if_pos hlen],
        by unfold capnp_read_data; rw [if_pos hlen]⟩
    · constructor
      · unfold capnp_read_text
        rw [if_neg hlen, if_neg hnn, if_pos hk]
      · unfold capnp_read_data
        rw [if_neg hlen, if_neg hnn, if_pos hk]
  · intro hk he hb hw
    by_cases hlen : p + 8 > r.seg_len
    · exact ⟨by unfold capnp_read_text; rw [if_pos hlen],
        by unfold capnp_read_data; rw [if_pos hlen]⟩
    · have hnn : ¬(read_le32 r.seg p = 0 ∧ read_le32 r.seg (p + 4) = 0) := by
        rintro ⟨h0, _⟩
        rw [h0] at hk
        simp at hk
      constructor
      · unfold capnp_read_text
        rw [if_neg hlen, if_neg hnn, if_neg (by simp [hk]),
          if_neg (by simp [he]), if_pos (by rw [Nat.mod_eq_of_lt hw]; omega)]
      · unfold capnp_read_data
        rw [if_neg hlen, if_neg hnn, if_neg (by simp [hk]),
          if_neg (by simp [he]), if_pos (by rw [Nat.mod_eq_of_lt hw]; omega)]

/-- Witness for C10's amended theorem at three concrete inputs: an
all-zero pointer (absent), a struct-kind pointer where text is expected
(failure), and a byte-list pointer whose 100-byte non-wrapping range
escapes the 8-byte segment (failure). -/
theorem capnp_read_text_data_null_vs_fail_witness :
    (capnp_read_text ⟨fun _ => 0, 8⟩ 0 = (none, some 0) ∧
     capnp_read_data ⟨fun _ => 0, 8⟩ 0 = (none, some 0)) ∧
    (capnp_read_text ⟨bytesToBuf [2, 0, 0, 0, 0, 0, 0, 0], 8⟩ 0 = (none, none) ∧
     capnp_read_data ⟨bytesToBuf [2, 0, 0, 0, 0, 0, 0, 0], 8⟩ 0 = (none, none)) ∧
    (capnp_read_text ⟨bytesToBuf [1, 0, 0, 0, 34, 3, 0, 0], 8⟩ 0 = (none, none) ∧
     capnp_read_data ⟨bytesToBuf [1, 0, 0, 0, 34, 3, 0, 0], 8⟩ 0 = (none, none)) := by
  refine ⟨(capnp_read_text_data_null_vs_fail ⟨fun _ => 0, 8⟩ 0).1
      (by decide) (fun i _ _ => by simp [byteAt]),
    (capnp_read_text_data_null_vs_fail ⟨bytesToBuf [2, 0, 0, 0, 0, 0, 0, 0], 8⟩ 0).2.1
      (by decide) (by decide),
    (capnp_read_text_data_null_vs_fail ⟨bytesToBuf [1, 0, 0, 0, 34, 3, 0, 0], 8⟩ 0).2.2
      (by decide) (by decide) (by decide) (by decide)⟩

/-! ## Arithmetic and buffer helper lemmas -/

theorem align8_dvd (n : Nat) : 8 ∣ align8 n := Nat.dvd_mul_left 8 ((n + 7) / 8)

theorem le_align8 (n : Nat) : n ≤ align8 n := by unfold align8; omega

theorem align8_lt (n : Nat) : align8 n < n + 8 := by unfold align8; omega

theorem align8_div_mul (n : Nat) : align8 n / 8 * 8 = align8 n :=
  Nat.div_mul_cancel (align8_dvd n)

theorem write_le32_outside (buf : Nat → Nat) (p v q : Nat)
    (h : q < p ∨ p + 4 ≤ q) : write_le32 buf p v q = buf q := by
  unfold write_le32
  rw [if_neg (by omega), if_neg (by omega), if_neg (by omega),
    if_neg (by omega)]

theorem read_le32_write_le32 (buf : Nat → Nat) (p v : Nat) :
    read_le32 (write_le32 buf p v) p = v % 2 ^ 32 := by
  have h0 : write_le32 buf p v p = v % 256 := by
    unfold write_le32; rw [if_pos rfl]
  have h1 : write_le32 buf p v (p + 1) = v / 2 ^ 8 % 256 := by
    unfold write_le32; rw [if_neg (by omega), if_pos rfl]
  have h2 : write_le32 buf p v (p + 2) = v / 2 ^ 16 % 256 := by
    unfold write_le32
    rw [if_neg (by omega), if_neg (by omega), if_pos rfl]
  have h3 : write_le32 buf p v (p + 3) = v / 2 ^ 24 % 256 := by
    unfold write_le32
    rw [if_neg (by omega), if_neg (by omega), if_neg (by omega), if_pos rfl]
  unfold read_le32 byteAt
  rw [h0, h1, h2, h3]
  norm_num
  omega

/-! ## Claim C3: `wire_message_size` of a finalized message -/

/-- The shape of a successful `capnp_finalize`. -/
theorem capnp_finalize_eq (b : capnp_builder_t) (out : Nat → Nat)
    (out_cap : Nat) (hcap : 8 + align8 b.pos ≤ out_cap) :
    capnp_finalize b out out_cap =
      (8 + align8 b.pos,
       fun i => if 8 ≤ i ∧ i < 8 + b.pos then b.buf i % 256
         else write_le32
           (write_le32 (fun j => if j < 8 + align8 b.pos then 0 else out j)
             0 0) 4 (align8 b.pos / 8 % 2 ^ 32) i) := by
  unfold capnp_finalize
  dsimp only
  rw [align8_div_mul]
  rw [if_neg (by omega)]

/-- C3 (amended): for every builder whose segment word count fits the
32-bit header field (`align8 pos / 8 < 2^32`, always true on the 32-bit
target) and an output buffer of sufficient capacity, `capnp_finalize`
returns a nonzero length `n = 8 + align8 pos`, `capnp_wire_message_size`
of the produced bytes at length `n` is exactly `n`, and every strict
prefix yields 0. -/
theorem capnp_finalize_wire_size (b : capnp_builder_t) (out : Nat → Nat)
    (out_cap : Nat)
    (hw : align8 b.pos / 8 < 2 ^ 32)
    (hcap : 8 + align8 b.pos ≤ out_cap) :
    (capnp_finalize b out out_cap).1 = 8 + align8 b.pos ∧
    (capnp_finalize b out out_cap).1 ≠ 0 ∧
    capnp_wire_message_size (capnp_finalize b out out_cap).2
      (capnp_finalize b out out_cap).1 = 8 + align8 b.pos ∧
    (∀ m, m < 8 + align8 b.pos →
      capnp_wire_message_size (capnp_finalize b out out_cap).2 m = 0) := by
  rw [capnp_finalize_eq b out out_cap hcap]
  set Z : Nat → Nat := fun j => if j < 8 + align8 b.pos then 0 else out j with hZ
  set W32 : Nat → Nat := write_le32 (write_le32 Z 0 0) 4 (align8 b.pos / 8 % 2 ^ 32)
    with hW32
  set OUT : Nat → Nat := fun i =>
    if 8 ≤ i ∧ i < 8 + b.pos then b.buf i % 256 else W32 i with hOUT
  have houtw : ∀ i, i < 8 → OUT i = W32 i := by
    intro i hi
    rw [hOUT]
    simp only
    rw [if_neg (by omega)]
  have hb0 : read_le32 OUT 0 = 0 := by
    have hc : read_le32 OUT 0 = read_le32 (write_le32 Z 0 0) 0 := by
      apply read_le32_congr
      intro i h1 h2
      rw [houtw i (by omega), hW32, write_le32_outside _ _ _ _ (by omega)]
    rw [hc, read_le32_write_le32]
    decide
  have hb4 : read_le32 OUT 4 = align8 b.pos / 8 := by
    have hc : read_le32 OUT 4 = read_le32 W32 4 := by
      apply read_le32_congr
      intro i h1 h2
      rw [houtw i (by omega)]
    rw [hc, hW32, read_le32_write_le32,
      Nat.mod_eq_of_lt hw, Nat.mod_eq_of_lt hw]
  refine ⟨rfl, by omega, ?_, ?_⟩
  · unfold capnp_wire_message_size
    rw [if_neg (by omega)]
    rw [hb0]
    simp only [ne_eq, not_true_eq_false, if_false, ite_false]
    rw [hb4, align8_div_mul]
    rw [if_neg (by omega)]
  · intro m hm
    unfold capnp_wire_message_size
    by_cases hm8 : m < 8
    · rw [if_pos hm8]
    · rw [if_neg hm8, hb0]
      simp only [ne_eq, not_true_eq_false, if_false, ite_false]
      rw [hb4, align8_div_mul]
      rw [if_pos (by omega)]

/-- Witness for C3's amended theorem: a builder with cursor 9 (segment
16 bytes, 2 words) finalized into a 24-byte output. -/
theorem capnp_finalize_wire_size_witness :
    (capnp_finalize ⟨fun _ => 0, 16, 9⟩ (fun _ => 0) 24).1 = 24 ∧
    capnp_wire_message_size (capnp_finalize ⟨fun _ => 0, 16, 9⟩ (fun _ => 0) 24).2
      24 = 24 ∧
    capnp_wire_message_size (capnp_finalize ⟨fun _ => 0, 16, 9⟩ (fun _ => 0) 24).2
      23 = 0 ∧
    capnp_wire_message_size (capnp_finalize ⟨fun _ => 0, 16, 9⟩ (fun _ => 0) 24).2
      7 = 0 := by
  have h := capnp_finalize_wire_size ⟨fun _ => 0, 16, 9⟩ (fun _ => 0) 24
    (by decide) (by decide)
  have e : align8 (9 : Nat) = 16 := by decide
  refine ⟨?_, ?_, ?_, ?_⟩
  · rw [h.1]; decide
  · have := h.2.2.1
    rw [show (capnp_finalize ⟨fun _ => 0, 16, 9⟩ (fun _ => 0) 24).1 = 24 by
      rw [h.1]; decide] at this
    rw [this]; decide
  · rw [h.2.2.2 23 (by decide)]
  · rw [h.2.2.2 7 (by decide)]

/-- C3 counterexample: on a 64-bit build, a builder with
`pos = cap = 2^35` finalizes successfully to `n = 2^35 + 8` bytes, but
the segment word count `2^32` is truncated to 0 in the 32-bit header
field, so `capnp_wire_message_size` of the produced bytes returns 8,
not `n`. -/
theorem capnp_finalize_wire_size_counterexample :
    (capnp_finalize finalizeOverflowBuilder (fun _ => 0) (2 ^ 35 + 8)).1 =
      2 ^ 35 + 8 ∧
    capnp_wire_message_size
      (capnp_finalize finalizeOverflowBuilder (fun _ => 0) (2 ^ 35 + 8)).2
      (2 ^ 35 + 8) = 8 ∧
    (8 : Nat) ≠ 2 ^ 35 + 8 := by
  refine ⟨by decide, ?_, by decide⟩
  have hcap : 8 + align8 finalizeOverflowBuilder.pos ≤ 2 ^ 35 + 8 := by decide
  rw [capnp_finalize_eq _ _ _ hcap]
  decide

/-! ## Claim C2: text write/read round-trip -/

theorem write_list_ptr_outside (buf : Nat → Nat) (p t e c q : Nat)
    (h : q < p ∨ p + 8 ≤ q) : capnp_write_list_ptr buf p t e c q = buf q := by
  unfold capnp_write_list_ptr
  rw [write_le32_outside _ _ _ _ (by omega), write_le32_outside _ _ _ _ (by omega)]

theorem read_lo_write_list_ptr (buf : Nat → Nat) (p t e c : Nat) :
    read_le32 (capnp_write_list_ptr buf p t e c) p =
      (offWordsWire t p * 4 % 2 ^ 32 ||| 1) % 2 ^ 32 := by
  unfold capnp_write_list_ptr
  dsimp only
  have hc : read_le32
      (write_le32 (write_le32 buf p (offWordsWire t p * 4 % 2 ^ 32 ||| 1))
        (p + 4) (e % 2 ^ 8 ||| c % 2 ^ 32 * 8 % 2 ^ 32)) p =
      read_le32 (write_le32 buf p (offWordsWire t p * 4 % 2 ^ 32 ||| 1)) p := by
    apply read_le32_congr
    intro i h1 h2
    rw [write_le32_outside _ _ _ _ (by omega)]
  rw [hc, read_le32_write_le32]

theorem read_hi_write_list_ptr (buf : Nat → Nat) (p t e c : Nat) :
    read_le32 (capnp_write_list_ptr buf p t e c) (p + 4) =
      (e % 2 ^ 8 ||| c % 2 ^ 32 * 8 % 2 ^ 32) % 2 ^ 32 := by
  unfold capnp_write_list_ptr
  dsimp only
  rw [read_le32_write_le32]

theorem offWordsWire_forward (t p : Nat) (h8 : p + 8 ≤ t) (hlt : t < 2 ^ 64) :
    offWordsWire t p = (t - p - 8) / 8 % 2 ^ 32 := by
  unfold offWordsWire
  have h1 : ((t : Int) - p - 8) = ((t - p - 8 : Nat) : Int) := by omega
  rw [h1, Int.emod_eq_of_lt (by omega) (by omega)]
  simp

theorem fdiv_cast_four (m : Nat) :
    ((m : Nat) : Int).fdiv 4 = ((m / 4 : Nat) : Int) := by
  exact_mod_cast (Int.ofNat_fdiv m 4).symm

theorem sizeT_add (p k : Nat) (h : p + 8 + k * 8 < 2 ^ 64) :
    sizeT ((p : Int) + 8 + (k : Int) * 8) = p + 8 + k * 8 := by
  unfold sizeT
  have h1 : ((p : Int) + 8 + (k : Int) * 8) = ((p + 8 + k * 8 : Nat) : Int) := by
    push_cast; ring
  rw [h1, Int.emod_eq_of_lt (by omega) (by omega)]
  omega

/-- The shape of a successful non-empty `capnp_write_text`. -/
theorem capnp_write_text_spec (b : capnp_builder_t) (a : Nat) (s : List Nat)
    (hs : s ≠ [])
    (hcap : align8 b.pos + (s.length + 1 + 7) / 8 * 8 ≤ b.cap)
    (h31 : align8 b.pos < 2 ^ 31) :
    capnp_write_text b a s = (0,
      { buf := capnp_write_list_ptr
          (writeByte
            (memcpyList
              (fun i => if b.pos ≤ i ∧ i < align8 b.pos then 0 else b.buf i)
              (align8 b.pos) s)
            (align8 b.pos + s.length) 0)
          a (align8 b.pos) 2 (s.length + 1)
        cap := b.cap
        pos := align8 b.pos + (s.length + 1 + 7) / 8 * 8 }) := by
  unfold capnp_write_text
  rw [if_neg hs]
  have halloc : capnp_alloc b ((s.length + 1 + 7) / 8) =
      (((align8 b.pos : Nat) : Int),
        { buf := fun i => if b.pos ≤ i ∧ i < align8 b.pos then 0 else b.buf i
          cap := b.cap
          pos := align8 b.pos + (s.length + 1 + 7) / 8 * 8 }) := by
    unfold capnp_alloc
    dsimp only
    rw [if_neg (by omega), sext32_small _ h31]
  dsimp only
  rw [halloc]
  dsimp only
  rw [if_neg (by omega)]
  rw [Int.toNat_natCast]

/-- C2 (amended): the text round-trip holds whenever the encoded count
`|s| + 1` fits the 29-bit count field (`|s| + 1 < 2^29`, i.e.
`|s| ≤ 2^29 - 2`, not `|s| < 2^29`) and the allocated block starts below
`2^31` (so that the `int` offset returned by `capnp_alloc` is the true
offset): then `capnp_write_text(b, at, s)` succeeds (returns 0), and
reading back at the same offset over the builder's buffer yields the
slice of length exactly `|s|` byte-equal to `s`, with encoded byte-list
count `|s| + 1`. -/
theorem capnp_write_read_text_roundtrip (b : capnp_builder_t) (a : Nat)
    (s : List Nat)
    (ha : a % 8 = 0)
    (hslot : a + 8 ≤ b.pos)
    (hs : s ≠ [])
    (_hnz : ∀ c ∈ s, c ≠ 0)
    (hbyte : ∀ c ∈ s, c < 256)
    (hlen : s.length + 1 < 2 ^ 29)
    (hcap : align8 b.pos + (s.length + 1 + 7) / 8 * 8 ≤ b.cap)
    (h31 : align8 b.pos < 2 ^ 31) :
    (capnp_write_text b a s).1 = 0 ∧
    read_le32 (capnp_write_text b a s).2.buf (a + 4) / 8 =
      s.length + 1 ∧
    capnp_read_text ⟨(capnp_write_text b a s).2.buf,
        (capnp_write_text b a s).2.pos⟩ a =
      (some (align8 b.pos), some s.length) ∧
    segSlice (capnp_write_text b a s).2.buf (align8 b.pos) s.length =
      s := by
  have hspec := capnp_write_text_spec b a s hs hcap h31
  rw [hspec]
  dsimp only
  set D := align8 b.pos with hD
  have haD : a + 8 ≤ D := le_trans hslot (le_align8 b.pos)
  have hDdvd : 8 ∣ D := align8_dvd b.pos
  have hadvd : 8 ∣ a := Nat.dvd_of_mod_eq_zero ha
  have hsub : 8 ∣ D - a - 8 := by
    have h1 : D - a - 8 = D - (a + 8) := by omega
    rw [h1]
    exact Nat.dvd_sub' hDdvd (Nat.dvd_add hadvd dvd_rfl)
  set K := (D - a - 8) / 8 with hK
  have h8K : K * 8 = D - a - 8 := Nat.div_mul_cancel hsub
  have hKlt : K < 2 ^ 29 := by omega
  have hD64 : D < 2 ^ 64 := by omega
  set BUF := capnp_write_list_ptr
      (writeByte
        (memcpyList
          (fun i => if b.pos ≤ i ∧ i < D then 0 else b.buf i) D s)
        (D + s.length) 0)
      a D 2 (s.length + 1) with hBUF
  have hoffw : offWordsWire D a = K := by
    rw [offWordsWire_forward D a (by omega) (by omega)]
    rw [← hK, Nat.mod_eq_of_lt (by omega)]
  have hlo : read_le32 BUF a = 4 * K + 1 := by
    rw [hBUF, read_lo_write_list_ptr, hoffw]
    have h1 : K * 4 % 2 ^ 32 = 4 * K := by
      rw [Nat.mod_eq_of_lt (by omega)]; ring
    rw [h1]
    have h2 : 4 * K ||| 1 = 4 * K + 1 := by
      have h3 := Nat.mul_add_lt_is_or (show 1 < 2 ^ 2 by norm_num) K
      norm_num at h3
      omega
    rw [h2, Nat.mod_eq_of_lt (by omega)]
  have hhi : read_le32 BUF (a + 4) = (s.length + 1) * 8 + 2 := by
    rw [hBUF, read_hi_write_list_ptr]
    have h1 : (2 : Nat) % 2 ^ 8 = 2 := by norm_num
    have h2 : (s.length + 1) % 2 ^ 32 = s.length + 1 :=
      Nat.mod_eq_of_lt (by omega)
    have h3 : (s.length + 1) * 8 % 2 ^ 32 = (s.length + 1) * 8 :=
      Nat.mod_eq_of_lt (by omega)
    rw [h1, h2, h3]
    have hbase := Nat.mul_add_lt_is_or (show 2 < 2 ^ 3 by norm_num) (s.length + 1)
    norm_num at hbase
    have h4 : (2 : Nat) ||| (s.length + 1) * 8 = (s.length + 1) * 8 + 2 := by
      rw [Nat.lor_comm]
      have hmul : (s.length + 1) * 8 = 8 * (s.length + 1) := by ring
      rw [hmul]
      omega
    rw [h4, Nat.mod_eq_of_lt (by omega)]
  refine ⟨rfl, by rw [hhi]; omega, ?_, ?_⟩
  · unfold capnp_read_text
    dsimp only
    rw [hlo, hhi]
    rw [if_neg (show ¬a + 8 > D + (s.length + 1 + 7) / 8 * 8 by
      have := le_align8 (s.length + 1)
      unfold align8 at this
      omega)]
    rw [if_neg (by omega)]
    rw [if_neg (by omega)]
    rw [if_neg (by omega)]
    rw [sext32_small _ (by omega), fdiv_cast_four]
    have hdiv4 : (4 * K + 1) / 4 = K := by omega
    rw [hdiv4, sizeT_add a K (by omega)]
    have hDval : a + 8 + K * 8 = D := by omega
    rw [hDval]
    rw [if_neg (show ¬(D + ((s.length + 1) * 8 + 2) / 8) % 2 ^ 64 >
        D + (s.length + 1 + 7) / 8 * 8 by
      have hc : ((s.length + 1) * 8 + 2) / 8 = s.length + 1 := by omega
      rw [hc, Nat.mod_eq_of_lt (by omega)]
      have := le_align8 (s.length + 1)
      unfold align8 at this
      omega)]
    have hcount : ((s.length + 1) * 8 + 2) / 8 = s.length + 1 := by omega
    rw [hcount, if_pos (by omega)]
    simp
  · have hmem : ∀ i, i < s.length → BUF (D + i) = s.getD i 0 % 256 := by
      intro i hi
      rw [hBUF, write_list_ptr_outside _ _ _ _ _ _ (by omega)]
      unfold writeByte
      rw [if_neg (by omega)]
      unfold memcpyList
      rw [if_pos ⟨by omega, by omega⟩]
      have hidx : D + i - D = i := by omega
      rw [hidx]
    apply List.ext_getElem
    · simp [segSlice]
    · intro i h1 h2
      simp only [segSlice, List.getElem_map, List.getElem_range]
      unfold byteAt
      rw [hmem i h2]
      have hlt256 : s.getD i 0 % 256 < 256 := Nat.mod_lt _ (by norm_num)
      rw [Nat.mod_eq_of_lt hlt256]
      rw [List.getD_eq_getElem?_getD, List.getElem?_eq_getElem h2]
      simp only [Option.getD_some]
      exact Nat.mod_eq_of_lt (hbyte _ (s.getElem_mem h2))

/-- Witness for C2's amended theorem: writing `"hi"` into a builder with
one allocated pointer word round-trips. -/
theorem capnp_write_read_text_roundtrip_witness :
    (capnp_write_text ⟨fun _ => 0, 64, 8⟩ 0 (str ("hi"))).1 = 0 ∧
    read_le32 (capnp_write_text ⟨fun _ => 0, 64, 8⟩ 0
        (str ("hi"))).2.buf 4 / 8 = 3 ∧
    capnp_read_text
      ⟨(capnp_write_text ⟨fun _ => 0, 64, 8⟩ 0 (str ("hi"))).2.buf,
       (capnp_write_text ⟨fun _ => 0, 64, 8⟩ 0 (str ("hi"))).2.pos⟩ 0 =
      (some 8, some 2) ∧
    segSlice (capnp_write_text ⟨fun _ => 0, 64, 8⟩ 0
        (str ("hi"))).2.buf 8 2 = str ("hi") := by
  have h := capnp_write_read_text_roundtrip ⟨fun _ => 0, 64, 8⟩ 0 (str ("hi"))
    (by decide) (by decide) (by decide) (by decide) (by decide) (by decide)
    (by decide) (by decide)
  refine ⟨h.1, ?_, ?_, ?_⟩
  · rw [h.2.1]
    decide
  · rw [h.2.2.1]
    decide
  · have e := h.2.2.2
    rw [show align8 (⟨fun _ => 0, 64, 8⟩ : capnp_builder_t).pos = 8 from by decide,
      show (str ("hi")).length = 2 from by decide] at e
    exact e

/-- C2 counterexample: at `|s| = 2^29 - 1` (admitted by the claim's
bound `|s| < 2^29`) the write succeeds, but the encoded count
`|s| + 1 = 2^29` overflows the 29-bit count field (`count << 3` wraps to
0 in `uint32_t`), so reading back yields length 0 instead of `|s|`. -/
theorem capnp_write_read_text_roundtrip_counterexample :
    (capnp_write_text textOverflowBuilder 0 textOverflowStr).1 = 0 ∧
    (capnp_read_text
      ⟨(capnp_write_text textOverflowBuilder 0 textOverflowStr).2.buf,
       (capnp_write_text textOverflowBuilder 0 textOverflowStr).2.pos⟩ 0).2 =
      some 0 ∧
    textOverflowStr.length = 2 ^ 29 - 1 ∧
    (2 ^ 29 - 1 : Nat) ≠ 0 := by
  have hlen : textOverflowStr.length = 2 ^ 29 - 1 := by
    unfold textOverflowStr
    exact List.length_replicate _ _
  have hgen : ∀ s : List Nat, s.length = 2 ^ 29 - 1 →
      (capnp_write_text textOverflowBuilder 0 s).1 = 0 ∧
      (capnp_read_text
        ⟨(capnp_write_text textOverflowBuilder 0 s).2.buf,
         (capnp_write_text textOverflowBuilder 0 s).2.pos⟩
        0).2 = some 0 := by
    intro s hsl
    have hs : s ≠ [] := by
      intro h
      rw [h] at hsl
      simp at hsl
    have hcap : align8 textOverflowBuilder.pos +
        (s.length + 1 + 7) / 8 * 8 ≤ textOverflowBuilder.cap := by
      rw [hsl]; decide
    have hspec := capnp_write_text_spec textOverflowBuilder 0 s hs hcap
      (by decide)
    rw [hspec]
    dsimp only
    refine ⟨rfl, ?_⟩
    have ha8 : align8 textOverflowBuilder.pos = 8 := by decide
    set BUF := capnp_write_list_ptr
        (writeByte
          (memcpyList
            (fun i => if textOverflowBuilder.pos ≤ i ∧
                i < align8 textOverflowBuilder.pos then 0
              else textOverflowBuilder.buf i)
            (align8 textOverflowBuilder.pos) s)
          (align8 textOverflowBuilder.pos + s.length) 0)
        0 (align8 textOverflowBuilder.pos) 2 (s.length + 1) with hBUF
    have hlo : read_le32 BUF 0 = 1 := by
      rw [hBUF, read_lo_write_list_ptr, ha8,
        offWordsWire_forward 8 0 (by omega) (by norm_num)]
      decide
    have hhi : read_le32 BUF (0 + 4) = 2 := by
      rw [hBUF, read_hi_write_list_ptr, hsl]
      decide
    unfold capnp_read_text
    dsimp only
    rw [hlo, hhi]
    rw [if_neg (by rw [hsl]; decide)]
    rw [if_neg (by omega)]
    rw [if_neg (by omega)]
    rw [if_neg (by omega)]
    rw [if_neg (by rw [hsl, ha8]; decide)]
    rfl
  obtain ⟨h1, h2⟩ := hgen textOverflowStr hlen
  exact ⟨h1, h2, hlen, by decide⟩

/-! ## Claim C6: data stream preamble enforcement -/

/-- C6: any buffer shorter than 8 bytes, or whose first 6 bytes differ
from the data-stream signature, or whose version bytes differ from
`'0' '1'`, makes `data_stream_parse_request` fail with `-1` and leave
the caller's request record untouched. -/
theorem data_stream_parse_request_bad_preamble (data : Nat → Nat) (len : Nat)
    (req : cf_connect_request_t)
    (h : len < 8 ∨
      ¬(∀ j, j < 6 → byteAt data j = CF_DATA_STREAM_SIGNATURE.getD j 0) ∨
      byteAt data 6 ≠ 48 ∨ byteAt data 7 ≠ 49) :
    data_stream_parse_request data len req = (-1, req) := by
  unfold data_stream_parse_request
  by_cases hl : len < 8
  · rw [if_pos hl]
  · rw [if_neg hl]
    by_cases hsig : ∀ j, j < 6 → byteAt data j = CF_DATA_STREAM_SIGNATURE.getD j 0
    · rw [if_neg (not_not_intro hsig)]
      have hv : byteAt data 6 ≠ 48 ∨ byteAt data 7 ≠ 49 := by
        rcases h with h | h | h | h
        · exact absurd h hl
        · exact absurd hsig h
        · exact Or.inl h
        · exact Or.inr h
      rw [if_pos hv]
    · rw [if_pos hsig]

/-- Witness for C6 at three concrete inputs: a 3-byte buffer, an 8-byte
buffer with a wrong signature, and a correct signature with version
`"02"`. -/
theorem data_stream_parse_request_bad_preamble_witness :
    data_stream_parse_request (bytesToBuf [1, 2, 3]) 3 cf_connect_request_zero =
      (-1, cf_connect_request_zero) ∧
    data_stream_parse_request (bytesToBuf [0, 0, 0, 0, 0, 0, 48, 49]) 8
      cf_connect_request_zero = (-1, cf_connect_request_zero) ∧
    data_stream_parse_request (bytesToBuf [10, 54, 205, 18, 161, 62, 48, 50]) 8
      cf_connect_request_zero = (-1, cf_connect_request_zero) := by
  refine ⟨?_, ?_, ?_⟩
  · exact data_stream_parse_request_bad_preamble _ _ _ (Or.inl (by decide))
  · exact data_stream_parse_request_bad_preamble _ _ _ (Or.inr (Or.inl (by decide)))
  · exact data_stream_parse_request_bad_preamble _ _ _
      (Or.inr (Or.inr (Or.inr (by decide))))

/-! ## Claim C5: HTTP response metadata construction -/

theorem natDecimalAux_length_le : ∀ fuel k n : Nat, n < 10 ^ (k + 1) →
    (natDecimalAux fuel n).length ≤ k + 1 := by
  intro fuel
  induction fuel with
  | zero => intro k n _; simp [natDecimalAux]
  | succ fuel ih =>
    intro k n hn
    unfold natDecimalAux
    by_cases h10 : n < 10
    · rw [if_pos h10]; simp
    · rw [if_neg h10]
      cases k with
      | zero =>
        norm_num at hn
        omega
      | succ k' =>
        rw [List.length_append]
        have hpow : (10 : Nat) ^ (k' + 1 + 1) = 10 ^ (k' + 1) * 10 := by ring
        rw [hpow] at hn
        have hdiv : n / 10 < 10 ^ (k' + 1) := by omega
        have hih := ih k' (n / 10) hdiv
        simp only [List.length_cons, List.length_nil]
        omega

theorem intDecimal_length_le (i : Int) (h : i.natAbs < 2 ^ 31) :
    (intDecimal i).length ≤ 11 := by
  unfold intDecimal natDecimal
  have h10 : (2 : Nat) ^ 31 ≤ 10 ^ (9 + 1) := by norm_num
  by_cases hneg : i < 0
  · rw [if_pos hneg]
    simp only [List.length_cons]
    have := natDecimalAux_length_le (i.natAbs + 1) 9 i.natAbs (by omega)
    omega
  · rw [if_neg hneg]
    have := natDecimalAux_length_le (i.toNat + 1) 9 i.toNat (by omega)
    omega

/-- C5 (amended): `data_stream_build_http_metadata` returns 0 with empty
error text; entry 0 is `HttpStatus` mapped to the decimal rendering of
the status; entry `i + 1` (for `i < header_count`, capped at 31
forwarded headers so that `metadata_count = min(1 + header_count, 32)`)
has key `HttpHeader:<name>` *truncated to 127 bytes* (the `char[128]`
field limit — the full concatenation whenever it is at most 127 bytes
long) and the header's value. -/
theorem data_stream_build_http_metadata_spec (status_code : Int)
    (headers : List cf_metadata_t)
    (hval : ∀ h ∈ headers, h.val.length ≤ 511)
    (hstatus : status_code.natAbs < 2 ^ 31) :
    (data_stream_build_http_metadata status_code headers).1 = 0 ∧
    (data_stream_build_http_metadata status_code headers).2.error = [] ∧
    (data_stream_build_http_metadata status_code headers).2.metadata.length =
      min (1 + headers.length) 32 ∧
    (data_stream_build_http_metadata status_code headers).2.metadata.head? =
      some ⟨str ("HttpStatus"), intDecimal status_code⟩ ∧
    (∀ i, i < headers.length → i < 31 →
      (data_stream_build_http_metadata status_code headers).2.metadata[i + 1]? =
        some ⟨(str ("HttpHeader:") ++ (headers.getD i ⟨[], []⟩).key).take 127,
              (headers.getD i ⟨[], []⟩).val⟩) := by
  unfold data_stream_build_http_metadata
  dsimp only
  refine ⟨rfl, rfl, ?_, ?_, ?_⟩
  · simp only [List.length_cons, List.length_map, List.length_take]
    unfold CF_MAX_METADATA
    omega
  · simp only [List.head?_cons]
    rw [List.take_of_length_le (le_trans (intDecimal_length_le _ hstatus)
      (by norm_num))]
    rw [show (str ("HttpStatus")).take 127 = str ("HttpStatus") from by decide]
  · intro i hi hi31
    simp only [List.getElem?_cons_succ, List.getElem?_map, List.getElem?_take]
    unfold CF_MAX_METADATA
    rw [if_pos (by omega)]
    rw [List.getElem?_eq_getElem hi]
    simp only [Option.map_some']
    have hmem : headers[i] ∈ headers := List.getElem_mem hi
    have hgd : headers.getD i ⟨[], []⟩ = headers[i] := by
      rw [List.getD_eq_getElem?_getD, List.getElem?_eq_getElem hi]
      rfl
    rw [hgd]
    unfold httpHeaderKeyOf
    rw [List.take_of_length_le (hval _ hmem)]

/-- Witness for C5's amended theorem: status 404 with headers
`[(Content-Type, text/plain)]`. -/
theorem data_stream_build_http_metadata_spec_witness :
    (data_stream_build_http_metadata 404
      [⟨str ("Content-Type"), str ("text/plain")⟩]).1 = 0 ∧
    (data_stream_build_http_metadata 404
      [⟨str ("Content-Type"), str ("text/plain")⟩]).2.error = [] ∧
    (data_stream_build_http_metadata 404
      [⟨str ("Content-Type"), str ("text/plain")⟩]).2.metadata.length = 2 ∧
    (data_stream_build_http_metadata 404
      [⟨str ("Content-Type"), str ("text/plain")⟩]).2.metadata.head? =
      some ⟨str ("HttpStatus"), str ("404")⟩ ∧
    (data_stream_build_http_metadata 404
      [⟨str ("Content-Type"), str ("text/plain")⟩]).2.metadata[1]? =
      some ⟨str ("HttpHeader:Content-Type"), str ("text/plain")⟩ := by
  have h := data_stream_build_http_metadata_spec 404
    [⟨str ("Content-Type"), str ("text/plain")⟩]
    (by
      intro x hx
      rw [List.mem_singleton] at hx
      subst hx
      decide)
    (by norm_num)
  refine ⟨h.1, h.2.1, ?_, ?_, ?_⟩
  · rw [h.2.2.1]; decide
  · rw [h.2.2.2.1]; decide
  · rw [h.2.2.2.2 0 (by decide) (by decide)]; decide

set_option maxRecDepth 40000 in
/-- C5 counterexample: a header whose 117-byte name makes
`HttpHeader:<name>` 128 bytes long is truncated to a 127-byte key, so
the emitted key is not the full concatenation the claim demands. -/
theorem data_stream_build_http_metadata_counterexample :
    ((data_stream_build_http_metadata 200
        [⟨List.replicate 117 97, [118]⟩]).2.metadata[1]?).map
      (fun e => e.key.length) = some 127 ∧
    (str ("HttpHeader:") ++ List.replicate 117 97).length = 128 ∧
    (127 : Nat) ≠ 128 := by
  refine ⟨by decide, by decide, by decide⟩

/-! ## Claim C7: sends after FIN -/

/-- C7 counterexample: on a stream whose pending-FIN flag is set,
`quic_tunnel_send` of the non-empty byte `[7]` is not rejected: it
returns 0 and appends to the send queue. -/
theorem quic_tunnel_send_after_fin_counterexample :
    quic_tunnel_send ⟨5, false, [], 0, true⟩ [7] false =
      (0, ⟨5, false, [7], 0, true⟩) ∧
    ((0 : Int) ≠ -1) ∧ (([7] : List Nat) ≠ []) := by
  refine ⟨by decide, by decide, by decide⟩

/-- C7 (amended): `quic_tunnel_send` does not enforce the
no-bytes-after-FIN rule: on a stream whose pending-FIN flag is set (and
not yet cleared by emission), a subsequent send succeeds (returns 0),
appends its bytes to the send queue, and leaves the FIN flag set. -/
theorem quic_tunnel_send_after_fin (sc : stream_ctx_t) (data : List Nat)
    (fin : Bool) (hfin : sc.send_fin = true) :
    (quic_tunnel_send sc data fin).1 = 0 ∧
    (quic_tunnel_send sc data fin).2.send_buf = sc.send_buf ++ data ∧
    (quic_tunnel_send sc data fin).2.send_fin = true := by
  by_cases hd : 0 < data.length
  · cases fin <;> simp [quic_tunnel_send, hd, hfin]
  · have hde : data = [] := by
      cases data with
      | nil => rfl
      | cons a l => simp at hd
    subst hde
    cases fin <;> simp [quic_tunnel_send, hfin]

/-- Witness for C7's amended theorem: appending `[3]` to a FIN-pending
stream with queue `[1, 2]`. -/
theorem quic_tunnel_send_after_fin_witness :
    (quic_tunnel_send ⟨1, false, [1, 2], 0, true⟩ [3] false).1 = 0 ∧
    (quic_tunnel_send ⟨1, false, [1, 2], 0, true⟩ [3] false).2.send_buf =
      [1, 2, 3] ∧
    (quic_tunnel_send ⟨1, false, [1, 2], 0, true⟩ [3] false).2.send_fin =
      true := by
  have h := quic_tunnel_send_after_fin ⟨1, false, [1, 2], 0, true⟩ [3] false
    (by decide)
  exact ⟨h.1, h.2.1.trans (by decide), h.2.2⟩

/-! ## Claim C8: synthesized 502 responses -/

/-- C8: whenever the origin proxy fails before a response is fully
produced — origin connect failure, request send failure, or response
read failure — `http_proxy_forward` returns a synthesized response with
status 502, sole header `Content-Type: text/plain`, and body
`502 Bad Gateway: ` followed by the failure reason. -/
theorem http_proxy_forward_bad_gateway (env : origin_env_t)
    (resp_in : cf_http_response_t)
    (hinit : env.initialised = true) :
    (env.connect_ok = false →
      http_proxy_forward env resp_in =
        (0, ⟨502,
             str ("502 Bad Gateway: ") ++ str ("connection to origin failed"),
             [⟨str ("Content-Type"), str ("text/plain")⟩]⟩)) ∧
    (env.connect_ok = true → env.send_ok = false →
      http_proxy_forward env resp_in =
        (0, ⟨502,
             str ("502 Bad Gateway: ") ++
               str ("failed to send request to origin"),
             [⟨str ("Content-Type"), str ("text/plain")⟩]⟩)) ∧
    (∀ st, env.connect_ok = true → env.send_ok = true →
      env.read_result = .failed st →
      http_proxy_forward env resp_in =
        (0, ⟨502,
             str ("502 Bad Gateway: ") ++
               str ("failed to read response from origin"),
             [⟨str ("Content-Type"), str ("text/plain")⟩]⟩)) := by
  refine ⟨?_, ?_, ?_⟩
  · intro hc
    unfold http_proxy_forward
    rw [if_neg (by simp [hinit]), if_pos hc]
    unfold set_bad_gateway
    rfl
  · intro hc hs
    unfold http_proxy_forward
    rw [if_neg (by simp [hinit]), if_neg (by simp [hc]), if_pos hs]
    unfold set_bad_gateway
    rfl
  · intro st hc hs hr
    unfold http_proxy_forward
    rw [if_neg (by simp [hinit]), if_neg (by simp [hc]), if_neg (by simp [hs]),
      hr]
    unfold set_bad_gateway
    rfl

/-- Witness for C8 at concrete environments exercising all three failure
steps. -/
theorem http_proxy_forward_bad_gateway_witness :
    http_proxy_forward ⟨true, false, true, .ok ⟨0, [], []⟩⟩ ⟨0, [], []⟩ =
      (0, ⟨502,
           str ("502 Bad Gateway: ") ++ str ("connection to origin failed"),
           [⟨str ("Content-Type"), str ("text/plain")⟩]⟩) ∧
    http_proxy_forward ⟨true, true, false, .ok ⟨0, [], []⟩⟩ ⟨0, [], []⟩ =
      (0, ⟨502,
           str ("502 Bad Gateway: ") ++
             str ("failed to send request to origin"),
           [⟨str ("Content-Type"), str ("text/plain")⟩]⟩) ∧
    http_proxy_forward ⟨true, true, true, .failed ⟨7, [1], []⟩⟩ ⟨0, [], []⟩ =
      (0, ⟨502,
           str ("502 Bad Gateway: ") ++
             str ("failed to read response from origin"),
           [⟨str ("Content-Type"), str ("text/plain")⟩]⟩) := by
  refine ⟨?_, ?_, ?_⟩
  · exact (http_proxy_forward_bad_gateway ⟨true, false, true, .ok ⟨0, [], []⟩⟩
      ⟨0, [], []⟩ rfl).1 rfl
  · exact (http_proxy_forward_bad_gateway ⟨true, true, false, .ok ⟨0, [], []⟩⟩
      ⟨0, [], []⟩ rfl).2.1 rfl rfl
  · exact (http_proxy_forward_bad_gateway ⟨true, true, true, .failed ⟨7, [1], []⟩⟩
      ⟨0, [], []⟩ rfl).2.2 ⟨7, [1], []⟩ rfl rfl rfl

/-! ## Claim C4: decoding an exception Return -/

/-- C4: for every well-formed single-segment message whose Message
union discriminant is 3 (return) and whose Return discriminant at data
byte 6 is 1 (exception) carrying a reason text, the decoder returns 0
with `success = false`, `should_retry = true`, and `error` equal to the
reason text up to the 255-byte field capacity. -/
theorem control_stream_decode_response_exception
    (data : Nat → Nat) (len : Nat) (r : capnp_reader_t)
    (root_off root_dw root_pc ret_off ret_dw ret_pc
      exc_off exc_dw exc_pc d rl : Nat)
    (hmsg : capnp_read_message data len = some r)
    (hroot : capnp_read_struct_ptr r 0 = some (root_off, root_dw, root_pc))
    (hwhich : capnp_read_uint16 r root_off 0 = 3)
    (hret : capnp_read_struct_ptr r (root_off + root_dw * 8) =
      some (ret_off, ret_dw, ret_pc))
    (hdw : 1 ≤ ret_dw)
    (hretwhich : capnp_read_uint16 r ret_off 6 = 1)
    (hexc : capnp_read_struct_ptr r (ret_off + ret_dw * 8) =
      some (exc_off, exc_dw, exc_pc))
    (hpc : 1 ≤ exc_pc)
    (hreason : capnp_read_text r (exc_off + exc_dw * 8) = (some d, some rl)) :
    control_stream_decode_response data len =
      (0, { cf_registration_result_zero with
              error := segSlice r.seg d (min rl 255)
              should_retry := true }) := by
  unfold control_stream_decode_response
  rw [hmsg]
  dsimp only
  rw [hroot]
  dsimp only
  rw [hwhich]
  rw [if_neg (by omega)]
  rw [hret]
  dsimp only
  rw [if_pos hdw, hretwhich]
  rw [if_pos rfl]
  rw [hexc]
  dsimp only
  rw [if_pos hpc]
  unfold readTextEff
  rw [hreason]
  dsimp only
  unfold copyBounded
  dsimp only
  simp only [Option.getD_some]
  by_cases h0 : 0 < rl
  · rw [if_pos h0]
  · rw [if_neg h0]
    have hrl0 : rl = 0 := by omega
    subst hrl0
    rfl

/-- Witness for C4: the synthesized `regExcMsg` message with reason
`"unauthorized"` decodes to a failed, retryable result carrying that
reason. -/
theorem control_stream_decode_response_exception_witness :
    control_stream_decode_response (bytesToBuf regExcMsg) 72 =
      (0, { cf_registration_result_zero with
              error := str ("unauthorized")
              should_retry := true }) := by
  have h := control_stream_decode_response_exception (bytesToBuf regExcMsg) 72
    ⟨fun i => bytesToBuf regExcMsg (8 + i), 64⟩
    8 1 1 24 1 1 40 0 1 48 12
    (by rfl) (by decide) (by decide) (by decide) (by decide) (by decide)
    (by decide) (by decide) (by decide)
  rw [h]
  decide

end Cloudflared
